import Mathlib

/-!
Shallow embedding of the A2A task lifecycle engine:
  src/a2a/models/message.py, src/a2a/models/task.py,
  src/a2a/exceptions.py, src/a2a/server/task_store.py,
  src/a2a/server/task_manager.py.

Python `datetime` instants are modelled as `Nat` ticks (each call to
`datetime.utcnow()` during one operation yields a successive tick);
`Dict[str, Any]` metadata mappings are modelled as string association
lists (the engine never interprets them). Exceptions are modelled with
`Except`; the handler callback may fail with an arbitrary message
string, mirroring an arbitrary Python exception.
-/

namespace A2A

/-- Stand-in for the opaque `Dict[str, Any]` metadata mappings. -/
abbrev Metadata := List (String × String)

/-- models/message.py: `MessageRole` enumeration. -/
inductive MessageRole
  | user
  | agent
deriving DecidableEq, Repr

/-- models/message.py: `FileContent`. -/
structure FileContent where
  name : Option String := none
  mime_type : Option String := none
  bytes : Option String := none
  uri : Option String := none
deriving DecidableEq, Repr

/-- models/message.py: `Part = Union[TextPart, FilePart, DataPart]`,
each variant carrying its payload and optional metadata. -/
inductive Part
  | text (text : String) (metadata : Option Metadata := none)
  | file (file : FileContent) (metadata : Option Metadata := none)
  | data (data : Metadata) (metadata : Option Metadata := none)
deriving DecidableEq, Repr

/-- models/message.py: `Message`. -/
structure Message where
  role : MessageRole
  parts : List Part
  message_id : Option String := none
  context_id : Option String := none
  metadata : Option Metadata := none
deriving DecidableEq, Repr

/-- models/task.py: `TaskState` enumeration. -/
inductive TaskState
  | submitted
  | working
  | inputRequired
  | completed
  | canceled
  | failed
  | unknown
deriving DecidableEq, Repr

/-- models/task.py: `TaskStatus` -- `{state, message?, timestamp}`. -/
structure TaskStatus where
  state : TaskState
  message : Option Message := none
  timestamp : Nat
deriving DecidableEq, Repr

/-- models/task.py: `Artifact`. -/
structure Artifact where
  name : Option String := none
  description : Option String := none
  parts : List Part
  index : Int := 0
  append : Option Bool := none
  last_chunk : Option Bool := none
  metadata : Option Metadata := none
deriving DecidableEq, Repr

/-- models/task.py: `Task`. `history` is `Optional[List[Message]]`,
defaulting to `None`, exactly as in the pydantic model. -/
structure Task where
  id : String
  session_id : Option String := none
  status : TaskStatus
  artifacts : Option (List Artifact) := none
  history : Option (List Message) := none
  metadata : Option Metadata := none
deriving DecidableEq, Repr

/-- models/task.py: `TaskSendParams`. -/
structure TaskSendParams where
  session_id : Option String := none
  message : Message
  push_notification : Option Metadata := none
deriving DecidableEq, Repr

/-- models/task.py: `TaskQueryParams`; `history_length` is an
`Optional[int]`, so it is modelled as `Option Int`. -/
structure TaskQueryParams where
  id : String
  history_length : Option Int := none
  metadata : Option Metadata := none
deriving DecidableEq, Repr

/-- models/task.py: `TaskStatusUpdateEvent`; `final` defaults to false. -/
structure TaskStatusUpdateEvent where
  id : String
  status : TaskStatus
  final : Bool := false
  metadata : Option Metadata := none
deriving DecidableEq, Repr

/-- exceptions.py: the exception kinds raised by the store and the
engine, plus `ValueError` raised by `InMemoryTaskStore.create_task`. -/
inductive A2AError
  | taskNotFound (task_id : String)
  | taskNotCancelable (task_id : String)
  | internalError (msg : String)
  | valueError (msg : String)
deriving DecidableEq, Repr

/-- exceptions.py: the JSON-RPC numeric code attached to each A2A
exception (`ValueError` is a plain Python exception with no code). -/
def A2AError.code : A2AError → Option Int
  | .taskNotFound _ => some (-32001)
  | .taskNotCancelable _ => some (-32002)
  | .internalError _ => some (-32603)
  | .valueError _ => none

/-- `str(e)` of each modelled exception, as built by its constructor. -/
def A2AError.str : A2AError → String
  | .taskNotFound tid => "Task not found: " ++ tid
  | .taskNotCancelable tid => "Task cannot be canceled: " ++ tid
  | .internalError m => m
  | .valueError m => m

/-- task_store.py: `InMemoryTaskStore._tasks` -- an insertion-ordered
dict from task id to Task, modelled as an association list. -/
abbrev Store := List (String × Task)

/-- Dict key lookup (`self._tasks[task_id]` / `task_id in self._tasks`). -/
def Store.lookupTask : Store → String → Option Task
  | [], _ => none
  | p :: rest, tid => if p.1 = tid then some p.2 else Store.lookupTask rest tid

/-- Dict key assignment for a key already present: replaces the value in
place, keeping insertion order. -/
def Store.setTask : Store → Task → Store
  | [], _ => []
  | p :: rest, t => (if p.1 = t.id then (t.id, t) else p) :: Store.setTask rest t

/-- Dict key deletion (`del self._tasks[task_id]`). -/
def Store.eraseTask : Store → String → Store
  | [], _ => []
  | p :: rest, tid =>
      if p.1 = tid then Store.eraseTask rest tid else p :: Store.eraseTask rest tid

/-- task_store.py: `InMemoryTaskStore.create_task` -- raises `ValueError`
if the id is already present, otherwise inserts. (The Python method
returns the task; the embedding returns the updated store state.) -/
def Store.create_task (s : Store) (t : Task) : Except A2AError Store :=
  if (Store.lookupTask s t.id).isSome then
    .error (.valueError ("Task with ID " ++ t.id ++ " already exists"))
  else
    .ok (s ++ [(t.id, t)])

/-- task_store.py: `InMemoryTaskStore.get_task` -- `TaskNotFound` if
absent. -/
def Store.get_task (s : Store) (task_id : String) : Except A2AError Task :=
  match Store.lookupTask s task_id with
  | none => .error (.taskNotFound task_id)
  | some t => .ok t

/-- task_store.py: `InMemoryTaskStore.update_task` -- `TaskNotFound` if
absent, otherwise replaces the stored value wholesale. -/
def Store.update_task (s : Store) (t : Task) : Except A2AError Store :=
  if (Store.lookupTask s t.id).isSome then
    .ok (Store.setTask s t)
  else
    .error (.taskNotFound t.id)

/-- task_store.py: `InMemoryTaskStore.delete_task` -- returns whether a
row was removed; never fails on absence. -/
def Store.delete_task (s : Store) (task_id : String) : Bool × Store :=
  if (Store.lookupTask s task_id).isSome then
    (true, Store.eraseTask s task_id)
  else
    (false, s)

/-- task_store.py: `InMemoryTaskStore.list_tasks` -- all tasks, or those
with an exactly matching `session_id`. -/
def Store.list_tasks (s : Store) (session_id : Option String) : List Task :=
  let tasks := s.map (fun p => p.2)
  match session_id with
  | none => tasks
  | some sid => tasks.filter (fun t => t.session_id = some sid)

/-- task_store.py: `InMemoryTaskStore.task_exists`. -/
def Store.task_exists (s : Store) (task_id : String) : Bool :=
  (Store.lookupTask s task_id).isSome

/-- task_manager.py: the membership test
`state in [COMPLETED, FAILED, CANCELED]` used by `cancel_task` and
`resubscribe_task`. -/
def isTerminal (st : TaskState) : Bool :=
  st == TaskState.completed || st == TaskState.failed || st == TaskState.canceled

/-- Python truthiness of `task.history` (`None` and `[]` are falsy). -/
def historyTruthy : Option (List Message) → Bool
  | none => false
  | some l => !l.isEmpty

/-- Python slice `xs[-n:]` for an arbitrary integer `n`: the last `n`
entries when `n > 0`, the whole list when `n = 0` (since `-0 == 0`), and
`xs[|n|:]` when `n < 0`. -/
def pySliceLast {α : Type} (xs : List α) (n : Int) : List α :=
  if 0 < n then xs.drop (xs.length - n.toNat)
  else if n = 0 then xs
  else xs.drop (-n).toNat

/-- task_manager.py: the message handler callback
`on_message_received : Message -> Message`; it may raise an arbitrary
exception, modelled as an error string. -/
abbrev Handler := Message → Except String Message

/-- Observable side effects of one engine operation, in order: each
successful write to the task store (tagged with the state written) and
each invocation of the message handler. -/
inductive PersistEvent
  | stored (st : TaskState)
  | handlerCalled
deriving DecidableEq, Repr

/-- Outcome of a non-streaming engine operation: the returned value or
raised exception, the resulting store state, and the effect trace. -/
structure OpResult (α : Type) where
  result : Except A2AError α
  store : Store
  trace : List PersistEvent

/-- Outcome of a streaming engine operation: the events yielded (in
order), the final outcome of the generator, the resulting store state,
and the effect trace. -/
structure StreamResult where
  events : List TaskStatusUpdateEvent
  result : Except A2AError Unit
  store : Store
  trace : List PersistEvent

/-- task_manager.py: the shared `except Exception` branch of
`create_task` / `send_task_message`: set the status to FAILED, persist,
and raise `InternalError` with the given message base prepended to
`str(e)`. (If the FAILED persist itself raises, that exception
propagates uncaught.) -/
def failBranch (s : Store) (task : Task) (ts : Nat) (base : String)
    (e : String) (tr : List PersistEvent) : OpResult Task :=
  let taskF := { task with status := { state := .failed, timestamp := ts } }
  match Store.update_task s taskF with
  | .error e2 => { result := .error e2, store := s, trace := tr }
  | .ok s2 =>
      { result := .error (.internalError (base ++ e)), store := s2,
        trace := tr ++ [.stored .failed] }

/-- task_manager.py: `TaskManager.process_message` -- the stateless
path; fails `InternalError` when no handler is registered, and wraps a
handler exception as `InternalError`. -/
def TaskManager.process_message (handler : Option Handler) (m : Message) :
    Except A2AError Message :=
  match handler with
  | none => .error (.internalError "No message handler registered")
  | some h =>
      match h m with
      | .ok r => .ok r
      | .error e => .error (.internalError ("Error processing message: " ++ e))

/-- task_manager.py: `TaskManager.create_task`. `task_id` is the
`uuid.uuid4()` draw; `clock` is the first `datetime.utcnow()` tick. The
`on_task_created` / `on_task_updated` callbacks are modelled as unset
(their default), as in every scenario the claims cover. -/
def TaskManager.create_task (handler : Option Handler) (store : Store)
    (task_id : String) (clock : Nat) (params : TaskSendParams) : OpResult Task :=
  let task0 : Task :=
    { id := task_id, session_id := params.session_id,
      status := { state := .submitted, timestamp := clock },
      history := some [params.message], metadata := some [] }
  match Store.create_task store task0 with
  | .error e => { result := .error e, store := store, trace := [] }
  | .ok s1 =>
    let task1 := { task0 with status := { state := .working, timestamp := clock + 1 } }
    match Store.update_task s1 task1 with
    | .error e =>
        failBranch s1 task1 (clock + 2) "Error processing task: " e.str
          [.stored .submitted]
    | .ok s2 =>
      match handler with
      | none =>
          { result := .ok task1, store := s2,
            trace := [.stored .submitted, .stored .working] }
      | some h =>
        match h params.message with
        | .error e =>
            failBranch s2 task1 (clock + 2) "Error processing task: " e
              [.stored .submitted, .stored .working, .handlerCalled]
        | .ok resp =>
          let task2 := { task1 with
            history := some (task1.history.getD [] ++ [resp]),
            status := { state := .completed, message := some resp,
                        timestamp := clock + 2 } }
          match Store.update_task s2 task2 with
          | .error e =>
              failBranch s2 task2 (clock + 3) "Error processing task: " e.str
                [.stored .submitted, .stored .working, .handlerCalled]
          | .ok s3 =>
              { result := .ok task2, store := s3,
                trace := [.stored .submitted, .stored .working,
                          .handlerCalled, .stored .completed] }

/-- task_manager.py: `TaskManager.get_task`. `InMemoryTaskStore.get_task`
returns the stored object itself, so reassigning `task.history` when a
`history_length` is given mutates the store's copy in place; the second
component is the store as left behind by the call. -/
def TaskManager.get_task (store : Store) (params : TaskQueryParams) :
    Except A2AError Task × Store :=
  match Store.get_task store params.id with
  | .error e => (.error e, store)
  | .ok task =>
      match params.history_length with
      | none => (.ok task, store)
      | some n =>
          if historyTruthy task.history then
            let task2 :=
              { task with history := some (pySliceLast (task.history.getD []) n) }
            (.ok task2, Store.setTask store task2)
          else
            (.ok task, store)

/-- task_manager.py: `TaskManager.send_task_message`. The WORKING
transition and its persist happen before the `try` block, so they apply
whatever the task's current state is, and an exception there propagates
uncaught. -/
def TaskManager.send_task_message (handler : Option Handler) (store : Store)
    (task_id : String) (clock : Nat) (params : TaskSendParams) : OpResult Task :=
  match Store.get_task store task_id with
  | .error e => { result := .error e, store := store, trace := [] }
  | .ok task =>
    let hist0 := if historyTruthy task.history then task.history.getD [] else []
    let task1 := { task with
      history := some (hist0 ++ [params.message]),
      status := { state := .working, timestamp := clock } }
    match Store.update_task store task1 with
    | .error e => { result := .error e, store := store, trace := [] }
    | .ok s1 =>
      match handler with
      | none => { result := .ok task1, store := s1, trace := [.stored .working] }
      | some h =>
        match h params.message with
        | .error e =>
            failBranch s1 task1 (clock + 1) "Error processing task message: " e
              [.stored .working, .handlerCalled]
        | .ok resp =>
          let task2 := { task1 with
            history := some (task1.history.getD [] ++ [resp]),
            status := { state := .completed, message := some resp,
                        timestamp := clock + 1 } }
          match Store.update_task s1 task2 with
          | .error e =>
              failBranch s1 task2 (clock + 2) "Error processing task message: " e.str
                [.stored .working, .handlerCalled]
          | .ok s2 =>
              { result := .ok task2, store := s2,
                trace := [.stored .working, .handlerCalled, .stored .completed] }

/-- task_manager.py: `TaskManager.send_task_message_stream` -- same
state progression as `send_task_message`, yielding a status event right
after the WORKING persist and a `final=true` event after the terminal
(COMPLETED or FAILED) persist. -/
def TaskManager.send_task_message_stream (handler : Option Handler) (store : Store)
    (task_id : String) (clock : Nat) (params : TaskSendParams) : StreamResult :=
  match Store.get_task store task_id with
  | .error e => { events := [], result := .error e, store := store, trace := [] }
  | .ok task =>
    let hist0 := if historyTruthy task.history then task.history.getD [] else []
    let task1 := { task with
      history := some (hist0 ++ [params.message]),
      status := { state := .working, timestamp := clock } }
    match Store.update_task store task1 with
    | .error e => { events := [], result := .error e, store := store, trace := [] }
    | .ok s1 =>
      let ev1 : TaskStatusUpdateEvent := { id := task_id, status := task1.status }
      match handler with
      | none =>
          { events := [ev1], result := .ok (), store := s1,
            trace := [.stored .working] }
      | some h =>
        match h params.message with
        | .error e =>
          let taskF := { task1 with
            status := { state := .failed, timestamp := clock + 1 } }
          match Store.update_task s1 taskF with
          | .error e2 =>
              { events := [ev1], result := .error e2, store := s1,
                trace := [.stored .working, .handlerCalled] }
          | .ok s2 =>
              { events := [ev1, { id := task_id, status := taskF.status, final := true }],
                result := .error (.internalError ("Error processing task message: " ++ e)),
                store := s2,
                trace := [.stored .working, .handlerCalled, .stored .failed] }
        | .ok resp =>
          let task2 := { task1 with
            history := some (task1.history.getD [] ++ [resp]),
            status := { state := .completed, message := some resp,
                        timestamp := clock + 1 } }
          match Store.update_task s1 task2 with
          | .error e =>
            let taskF := { task2 with
              status := { state := .failed, timestamp := clock + 2 } }
            match Store.update_task s1 taskF with
            | .error e2 =>
                { events := [ev1], result := .error e2, store := s1,
                  trace := [.stored .working, .handlerCalled] }
            | .ok s2 =>
                { events := [ev1, { id := task_id, status := taskF.status, final := true }],
                  result := .error (.internalError ("Error processing task message: " ++ e.str)),
                  store := s2,
                  trace := [.stored .working, .handlerCalled, .stored .failed] }
          | .ok s2 =>
              { events := [ev1, { id := task_id, status := task2.status, final := true }],
                result := .ok (), store := s2,
                trace := [.stored .working, .handlerCalled, .stored .completed] }

/-- task_manager.py: `TaskManager.cancel_task` -- refuses with
`TaskNotCancelable` when the current state is COMPLETED, FAILED or
CANCELED; otherwise transitions to CANCELED and persists. The
`on_task_canceled` callback is modelled as unset (its default). -/
def TaskManager.cancel_task (store : Store) (task_id : String) (clock : Nat) :
    Except A2AError Task × Store :=
  match Store.get_task store task_id with
  | .error e => (.error e, store)
  | .ok task =>
      if isTerminal task.status.state then
        (.error (.taskNotCancelable task_id), store)
      else
        let task1 := { task with
          status := { state := .canceled, timestamp := clock } }
        match Store.update_task store task1 with
        | .error e => (.error e, store)
        | .ok s1 => (.ok task1, s1)

/-- task_manager.py: `TaskManager.resubscribe_task` -- yields exactly
one event reflecting the task's current status, `final` iff the state is
terminal; performs no store write. The third component is the store as
left behind (unchanged). -/
def TaskManager.resubscribe_task (store : Store) (task_id : String) :
    List TaskStatusUpdateEvent × Except A2AError Unit × Store :=
  match Store.get_task store task_id with
  | .error e => ([], .error e, store)
  | .ok task =>
      ([{ id := task_id, status := task.status,
          final := isTerminal task.status.state }], .ok (), store)

/-! Concrete fixtures, mirroring the repository's tests and the spec's
concrete scenarios (tests/test_basic.py, spec scenarios 1-4). -/

/-- `message.parts[0].text` as used by the echo handler in
tests/test_basic.py (empty when the first part is not a text part). -/
def firstText (m : Message) : String :=
  match m.parts with
  | .text t _ :: _ => t
  | _ => ""

/-- The echo handler of tests/test_basic.py / spec scenario 1. -/
def echoHandler : Handler :=
  fun m => .ok { role := .agent, parts := [.text ("Echo: " ++ firstText m)] }

/-- A handler that always raises (spec scenario 4). -/
def raisingHandler : Handler := fun _ => .error "boom"

/-- The user message "hi" of spec scenario 1. -/
def msgHi : Message := { role := .user, parts := [.text "hi"] }

/-- Send parameters carrying `msgHi`. -/
def sendHi : TaskSendParams := { message := msgHi }

/-- A task already in the terminal state CANCELED. -/
def taskCanceled : Task :=
  { id := "t1", status := { state := .canceled, timestamp := 0 },
    history := some [msgHi] }

/-- A store holding only `taskCanceled`. -/
def storeCanceled : Store := [("t1", taskCanceled)]

/-- A task in state WORKING. -/
def taskWorking : Task :=
  { id := "t1", status := { state := .working, timestamp := 0 },
    history := some [msgHi] }

/-- A store holding only `taskWorking`. -/
def storeWorking : Store := [("t1", taskWorking)]

/-- First history entry of the two-message task. -/
def msgA : Message := { role := .user, parts := [.text "m1"] }

/-- Second history entry of the two-message task. -/
def msgB : Message := { role := .agent, parts := [.text "m2"] }

/-- A completed task whose stored history has two entries. -/
def taskTwoHist : Task :=
  { id := "t2", status := { state := .completed, timestamp := 0 },
    history := some [msgA, msgB] }

/-- A store holding only `taskTwoHist`. -/
def storeTwoHist : Store := [("t2", taskTwoHist)]

/-- The echo handler's response to `msgHi`. -/
def msgEchoHi : Message := { role := .agent, parts := [.text "Echo: hi"] }

/-! Store lemmas. -/

/-- Replacing a present key makes lookup at that key return the new task. -/
theorem Store.lookupTask_setTask_self (s : Store) (t : Task)
    (h : (Store.lookupTask s t.id).isSome) :
    Store.lookupTask (Store.setTask s t) t.id = some t := by
  induction s with
  | nil => simp [Store.lookupTask] at h
  | cons p rest ih =>
      by_cases hp : p.1 = t.id
      · simp [Store.setTask, Store.lookupTask, hp]
      · simp [Store.setTask, Store.lookupTask, hp] at h ⊢
        exact ih h

/-- Appending a fresh key makes lookup at that key return the new task. -/
theorem Store.lookupTask_append_fresh (s : Store) (k : String) (t : Task)
    (h : Store.lookupTask s k = none) :
    Store.lookupTask (s ++ [(k, t)]) k = some t := by
  induction s with
  | nil => simp [Store.lookupTask]
  | cons p rest ih =>
      by_cases hp : p.1 = k
      · simp [Store.lookupTask, hp] at h
      · simp [Store.lookupTask, hp] at h ⊢
        exact ih h

/-- After erasing a key, lookup at that key returns nothing. -/
theorem Store.lookupTask_eraseTask_self (s : Store) (tid : String) :
    Store.lookupTask (Store.eraseTask s tid) tid = none := by
  induction s with
  | nil => simp [Store.eraseTask, Store.lookupTask]
  | cons p rest ih =>
      by_cases hp : p.1 = tid
      · simp [Store.eraseTask, hp, ih]
      · simp [Store.eraseTask, Store.lookupTask, hp, ih]

/-- `isTerminal` holds exactly on COMPLETED, FAILED and CANCELED. -/
theorem isTerminal_iff (st : TaskState) :
    isTerminal st = true ↔
      (st = TaskState.completed ∨ st = TaskState.failed ∨ st = TaskState.canceled) := by
  cases st <;> decide

/-- `isTerminal` holds on CANCELED. -/
theorem isTerminal_canceled : isTerminal TaskState.canceled = true := rfl

/-- Full characterization of lookup after `setTask`. -/
theorem Store.lookupTask_setTask (s : Store) (t : Task) (k : String) :
    Store.lookupTask (Store.setTask s t) k =
      if t.id = k then (Store.lookupTask s k).map (fun _ => t)
      else Store.lookupTask s k := by
  induction s with
  | nil => by_cases hk : t.id = k <;> simp [Store.setTask, Store.lookupTask, hk]
  | cons p rest ih =>
      by_cases hp : p.1 = t.id
      · by_cases hk : t.id = k
        · simp [Store.setTask, Store.lookupTask, hp, hk]
        · have hpk : ¬ p.1 = k := fun hh => hk (hp.symm.trans hh)
          simp [Store.setTask, Store.lookupTask, hp, hk, hpk, ih]
      · by_cases hpk : p.1 = k
        · have hk : ¬ t.id = k := fun hh => hp (hpk.trans hh.symm)
          have hk2 : ¬ k = t.id := fun hh => hk hh.symm
          simp [Store.setTask, Store.lookupTask, hp, hpk, hk, hk2]
        · simp [Store.setTask, Store.lookupTask, hp, hpk, ih]

/-- Full characterization of lookup after appending one entry. -/
theorem Store.lookupTask_append_single (s : Store) (k0 : String) (t : Task) (k : String) :
    Store.lookupTask (s ++ [(k0, t)]) k =
      match Store.lookupTask s k with
      | some r => some r
      | none => if k0 = k then some t else none := by
  induction s with
  | nil => simp [Store.lookupTask]
  | cons p rest ih =>
      by_cases hp : p.1 = k
      · simp [Store.lookupTask, hp]
      · simp [Store.lookupTask, hp, ih]

/-- Overwriting a task's history with its own history is the identity. -/
theorem Task.withHistory_self (t : Task) (hist : List Message)
    (hh : t.history = some hist) : ({ t with history := some hist } : Task) = t := by
  obtain ⟨i, sid, st, art, h2, md⟩ := t
  have hh3 : h2 = some hist := hh
  subst hh3
  rfl

/-- Claim C1: the claim says no engine operation moves a task out of a
terminal state, and in particular `send_task_message` on a terminal task
does not move it to WORKING or any other state. The code violates this:
`taskCanceled` is terminal (CANCELED), yet `send_task_message` with the
echo handler persists it in WORKING (see the trace) and leaves it stored
in COMPLETED. -/
theorem c1_sendTaskMessage_moves_terminal_state :
    isTerminal taskCanceled.status.state = true
    ∧ (Store.lookupTask
          (TaskManager.send_task_message (some echoHandler) storeCanceled "t1" 5 sendHi).store
          "t1").map (fun t => t.status.state) = some TaskState.completed
    ∧ (TaskManager.send_task_message (some echoHandler) storeCanceled "t1" 5 sendHi).trace
        = [.stored .working, .handlerCalled, .stored .completed] := by
  decide

/-- Claim C2: the claim says history truncation in `get_task` is a view
only, the store keeping the full history. The code violates this: the
store returns the task object itself, so the truncating call rewrites
the stored history. After `get_task` with `history_length = 1` on
`taskTwoHist` (stored history `[msgA, msgB]`), a subsequent `get_task`
with no limit returns only `[msgB]`. -/
theorem c2_truncated_get_mutates_store :
    (TaskManager.get_task storeTwoHist { id := "t2", history_length := some 1 }).1
        = .ok { taskTwoHist with history := some [msgB] }
    ∧ (TaskManager.get_task
          (TaskManager.get_task storeTwoHist { id := "t2", history_length := some 1 }).2
          { id := "t2" }).1
        = .ok { taskTwoHist with history := some [msgB] }
    ∧ taskTwoHist.history = some [msgA, msgB]
    ∧ some [msgB] ≠ some [msgA, msgB] :=
  ⟨rfl, rfl, rfl, by decide⟩

/-- Claim C3, counterexample: with no message handler configured the
stream produced by `send_task_message_stream` terminates normally after
a single event whose `final` flag is false, so not every finite stream
emits exactly one `final = true` event. -/
theorem c3_counterexample_stream_without_handler :
    (TaskManager.send_task_message_stream none storeWorking "t1" 0 sendHi).result = .ok ()
    ∧ ((TaskManager.send_task_message_stream none storeWorking "t1" 0 sendHi).events.filter
          (fun e => e.final)).length = 0 :=
  ⟨rfl, by decide⟩

/-- Claim C3 (amended): when a message handler is configured and the
task id is stored (under the store invariant that the stored task's own
id equals its key), the stream emits exactly two events, only the last
carries `final = true`, and when the handler raises, that final event
carries the FAILED status and the call fails with `InternalError`
wrapping the original failure. -/
theorem c3_stream_unique_final_event (h : Handler) (store : Store) (task_id : String)
    (clock : Nat) (params : TaskSendParams) (t : Task)
    (hfound : Store.lookupTask store task_id = some t) (hid : t.id = task_id) :
    ∃ ev1 ev2,
      (TaskManager.send_task_message_stream (some h) store task_id clock params).events
          = [ev1, ev2]
      ∧ ev1.final = false ∧ ev2.final = true
      ∧ (∀ e, h params.message = .error e →
          ev2.status.state = TaskState.failed
          ∧ (TaskManager.send_task_message_stream (some h) store task_id clock params).result
              = .error (.internalError ("Error processing task message: " ++ e))) := by
  subst hid
  cases hresp : h params.message with
  | error e =>
      simp [TaskManager.send_task_message_stream, Store.get_task, Store.update_task, hfound,
        hresp, Store.lookupTask_setTask]
      exact ⟨_, _, ⟨⟨rfl, rfl⟩, rfl, rfl, rfl⟩⟩
  | ok resp =>
      simp [TaskManager.send_task_message_stream, Store.get_task, Store.update_task, hfound,
        hresp, Store.lookupTask_setTask]
      exact ⟨_, _, ⟨⟨rfl, rfl⟩, rfl, rfl⟩⟩

/-- Claim C3, witness: the amended statement at the raising handler and
the stored WORKING task. -/
theorem c3_stream_unique_final_event_witness :
    ∃ ev1 ev2,
      (TaskManager.send_task_message_stream (some raisingHandler) storeWorking "t1" 0 sendHi).events
          = [ev1, ev2]
      ∧ ev1.final = false ∧ ev2.final = true
      ∧ (∀ e, raisingHandler sendHi.message = .error e →
          ev2.status.state = TaskState.failed
          ∧ (TaskManager.send_task_message_stream (some raisingHandler) storeWorking "t1" 0 sendHi).result
              = .error (.internalError ("Error processing task message: " ++ e))) :=
  c3_stream_unique_final_event raisingHandler storeWorking "t1" 0 sendHi taskWorking
    (by decide) rfl

/-- Claim C4: when the handler returns a response, `create_task` returns
a COMPLETED task with the response embedded in `status.message`, history
`[inbound, response]`, the freshly allocated id, and the effect trace
shows the task persisted in SUBMITTED before the handler was invoked and
re-persisted after the WORKING and COMPLETED transitions. -/
theorem c4_create_task_completes (h : Handler) (store : Store) (tid : String)
    (clock : Nat) (params : TaskSendParams) (resp : Message)
    (hfresh : Store.lookupTask store tid = none)
    (hresp : h params.message = .ok resp) :
    ∃ t, (TaskManager.create_task (some h) store tid clock params).result = .ok t
      ∧ t.id = tid
      ∧ t.status.state = TaskState.completed
      ∧ t.status.message = some resp
      ∧ t.history = some [params.message, resp]
      ∧ Store.lookupTask (TaskManager.create_task (some h) store tid clock params).store tid
          = some t
      ∧ (TaskManager.create_task (some h) store tid clock params).trace
          = [.stored .submitted, .stored .working, .handlerCalled, .stored .completed] := by
  simp [TaskManager.create_task, Store.create_task, Store.update_task, hfresh, hresp,
    Store.lookupTask_append_single, Store.lookupTask_setTask]

/-- Claim C4, witness: spec scenario 1 -- message "hi", echo handler,
expected history `["hi", "Echo: hi"]` and final state COMPLETED. -/
theorem c4_create_task_completes_witness :
    ∃ t, (TaskManager.create_task (some echoHandler) [] "tid1" 0 sendHi).result = .ok t
      ∧ t.id = "tid1"
      ∧ t.status.state = TaskState.completed
      ∧ t.status.message = some msgEchoHi
      ∧ t.history = some [sendHi.message, msgEchoHi]
      ∧ Store.lookupTask (TaskManager.create_task (some echoHandler) [] "tid1" 0 sendHi).store
          "tid1" = some t
      ∧ (TaskManager.create_task (some echoHandler) [] "tid1" 0 sendHi).trace
          = [.stored .submitted, .stored .working, .handlerCalled, .stored .completed] :=
  c4_create_task_completes echoHandler [] "tid1" 0 sendHi msgEchoHi rfl rfl

/-- Claim C5: when the handler raises, both `create_task` and
`send_task_message` persist the task in FAILED and fail with
`InternalError` carrying the original failure message; the effect trace
contains exactly one handler invocation (no automatic retry). -/
theorem c5_handler_failure_internal_error (h : Handler) (e : String)
    (store store2 : Store) (tid tid2 : String) (clock : Nat) (params : TaskSendParams)
    (t : Task)
    (hresp : h params.message = .error e)
    (hfresh : Store.lookupTask store tid = none)
    (hfound : Store.lookupTask store2 tid2 = some t) (hid : t.id = tid2) :
    ((TaskManager.create_task (some h) store tid clock params).result
        = .error (.internalError ("Error processing task: " ++ e))
      ∧ (∃ t1, Store.lookupTask
            (TaskManager.create_task (some h) store tid clock params).store tid = some t1
          ∧ t1.status.state = TaskState.failed)
      ∧ (TaskManager.create_task (some h) store tid clock params).trace
          = [.stored .submitted, .stored .working, .handlerCalled, .stored .failed]
      ∧ ([PersistEvent.stored .submitted, .stored .working, .handlerCalled,
          .stored .failed].count PersistEvent.handlerCalled) = 1)
    ∧ ((TaskManager.send_task_message (some h) store2 tid2 clock params).result
        = .error (.internalError ("Error processing task message: " ++ e))
      ∧ (∃ t2, Store.lookupTask
            (TaskManager.send_task_message (some h) store2 tid2 clock params).store tid2
            = some t2
          ∧ t2.status.state = TaskState.failed)
      ∧ (TaskManager.send_task_message (some h) store2 tid2 clock params).trace
          = [.stored .working, .handlerCalled, .stored .failed]
      ∧ ([PersistEvent.stored .working, .handlerCalled,
          .stored .failed].count PersistEvent.handlerCalled) = 1) := by
  subst hid
  constructor
  · refine ⟨?_, ?_, ?_, by decide⟩ <;>
      simp [TaskManager.create_task, Store.create_task, Store.update_task, failBranch,
        hfresh, hresp, Store.lookupTask_append_single, Store.lookupTask_setTask]
  · refine ⟨?_, ?_, ?_, by decide⟩ <;>
      simp [TaskManager.send_task_message, Store.get_task, Store.update_task, failBranch,
        hfound, hresp, Store.lookupTask_setTask]

/-- Claim C5, witness: the raising handler against a fresh id and
against the stored WORKING task. -/
theorem c5_handler_failure_internal_error_witness :
    ((TaskManager.create_task (some raisingHandler) [] "x" 0 sendHi).result
        = .error (.internalError ("Error processing task: " ++ "boom"))
      ∧ (∃ t1, Store.lookupTask
            (TaskManager.create_task (some raisingHandler) [] "x" 0 sendHi).store "x" = some t1
          ∧ t1.status.state = TaskState.failed)
      ∧ (TaskManager.create_task (some raisingHandler) [] "x" 0 sendHi).trace
          = [.stored .submitted, .stored .working, .handlerCalled, .stored .failed]
      ∧ ([PersistEvent.stored .submitted, .stored .working, .handlerCalled,
          .stored .failed].count PersistEvent.handlerCalled) = 1)
    ∧ ((TaskManager.send_task_message (some raisingHandler) storeWorking "t1" 0 sendHi).result
        = .error (.internalError ("Error processing task message: " ++ "boom"))
      ∧ (∃ t2, Store.lookupTask
            (TaskManager.send_task_message (some raisingHandler) storeWorking "t1" 0 sendHi).store
            "t1" = some t2
          ∧ t2.status.state = TaskState.failed)
      ∧ (TaskManager.send_task_message (some raisingHandler) storeWorking "t1" 0 sendHi).trace
          = [.stored .working, .handlerCalled, .stored .failed]
      ∧ ([PersistEvent.stored .working, .handlerCalled,
          .stored .failed].count PersistEvent.handlerCalled) = 1) :=
  c5_handler_failure_internal_error raisingHandler "boom" [] storeWorking "x" "t1" 0 sendHi
    taskWorking rfl rfl (by decide) rfl

/-- Claim C6: `cancel_task` fails `NotCancelable` (code -32002) iff the
current state is terminal; otherwise it transitions to CANCELED,
persists, and a second cancel of the same task fails `NotCancelable`. -/
theorem c6_cancel_iff_terminal (store : Store) (tid : String) (clock clock2 : Nat)
    (t : Task) (hfound : Store.lookupTask store tid = some t) (hid : t.id = tid) :
    (isTerminal t.status.state = true →
        TaskManager.cancel_task store tid clock = (.error (.taskNotCancelable tid), store))
    ∧ (isTerminal t.status.state = false →
        ∃ t', (TaskManager.cancel_task store tid clock).1 = .ok t'
          ∧ t'.status.state = TaskState.canceled
          ∧ Store.lookupTask (TaskManager.cancel_task store tid clock).2 tid = some t'
          ∧ (TaskManager.cancel_task (TaskManager.cancel_task store tid clock).2 tid clock2).1
              = .error (.taskNotCancelable tid))
    ∧ (A2AError.taskNotCancelable tid).code = some (-32002) := by
  subst hid
  refine ⟨?_, ?_, rfl⟩
  · intro hterm
    simp [TaskManager.cancel_task, Store.get_task, hfound, hterm]
  · intro hterm
    have hcancel : TaskManager.cancel_task store t.id clock
        = (.ok { t with status := { state := .canceled, timestamp := clock } },
           Store.setTask store { t with status := { state := .canceled, timestamp := clock } }) := by
      simp [TaskManager.cancel_task, Store.get_task, hfound, hterm, Store.update_task]
    have hself : Store.lookupTask
        (Store.setTask store { t with status := { state := .canceled, timestamp := clock } }) t.id
        = some { t with status := { state := .canceled, timestamp := clock } } := by
      have hx := Store.lookupTask_setTask_self store
        { t with status := { state := .canceled, timestamp := clock } } (by simp [hfound])
      simpa using hx
    refine ⟨{ t with status := { state := .canceled, timestamp := clock } }, ?_, rfl, ?_, ?_⟩
    · rw [hcancel]
    · rw [hcancel]
      exact hself
    · rw [hcancel]
      simp [TaskManager.cancel_task, Store.get_task, hself, isTerminal_canceled]

/-- Claim C6, witness: canceling the stored WORKING task. -/
theorem c6_cancel_iff_terminal_witness :
    (isTerminal taskWorking.status.state = true →
        TaskManager.cancel_task storeWorking "t1" 3
          = (.error (.taskNotCancelable "t1"), storeWorking))
    ∧ (isTerminal taskWorking.status.state = false →
        ∃ t', (TaskManager.cancel_task storeWorking "t1" 3).1 = .ok t'
          ∧ t'.status.state = TaskState.canceled
          ∧ Store.lookupTask (TaskManager.cancel_task storeWorking "t1" 3).2 "t1" = some t'
          ∧ (TaskManager.cancel_task (TaskManager.cancel_task storeWorking "t1" 3).2 "t1" 4).1
              = .error (.taskNotCancelable "t1"))
    ∧ (A2AError.taskNotCancelable "t1").code = some (-32002) :=
  c6_cancel_iff_terminal storeWorking "t1" 3 4 taskWorking (by decide) rfl

/-- Claim C7: store round-trip -- get after create returns the created
task, update after create is visible to get, delete makes exists false
and get fail `TaskNotFound`, and delete on an absent id returns false
without failing. -/
theorem c7_store_roundtrip (s : Store) (t t2 : Task) (tid : String)
    (hfresh : Store.lookupTask s t.id = none) (hid2 : t2.id = t.id)
    (habsent : Store.lookupTask s tid = none) :
    ∃ s1, Store.create_task s t = .ok s1
      ∧ Store.get_task s1 t.id = .ok t
      ∧ (∃ s2, Store.update_task s1 t2 = .ok s2 ∧ Store.get_task s2 t.id = .ok t2)
      ∧ (Store.delete_task s1 t.id).1 = true
      ∧ Store.task_exists (Store.delete_task s1 t.id).2 t.id = false
      ∧ Store.get_task (Store.delete_task s1 t.id).2 t.id = .error (.taskNotFound t.id)
      ∧ Store.delete_task s tid = (false, s) := by
  have hget : Store.lookupTask (s ++ [(t.id, t)]) t.id = some t :=
    Store.lookupTask_append_fresh s t.id t hfresh
  refine ⟨s ++ [(t.id, t)], ?_, ?_, ?_, ?_, ?_, ?_, ?_⟩
  · simp [Store.create_task, hfresh]
  · simp [Store.get_task, hget]
  · refine ⟨Store.setTask (s ++ [(t.id, t)]) t2, ?_, ?_⟩
    · simp [Store.update_task, hid2, hget]
    · have hs : Store.lookupTask (Store.setTask (s ++ [(t.id, t)]) t2) t2.id = some t2 :=
        Store.lookupTask_setTask_self _ t2 (by simp [hid2, hget])
      rw [hid2] at hs
      simp [Store.get_task, hs]
  · simp [Store.delete_task, hget]
  · simp [Store.delete_task, hget, Store.task_exists, Store.lookupTask_eraseTask_self]
  · simp [Store.delete_task, hget, Store.get_task, Store.lookupTask_eraseTask_self]
  · simp [Store.delete_task, habsent]

/-- Claim C7, witness: the round-trip on an empty store with two
concrete tasks sharing the id "t1" and the absent id "zz". -/
theorem c7_store_roundtrip_witness :
    ∃ s1, Store.create_task [] taskWorking = .ok s1
      ∧ Store.get_task s1 taskWorking.id = .ok taskWorking
      ∧ (∃ s2, Store.update_task s1 taskCanceled = .ok s2
          ∧ Store.get_task s2 taskWorking.id = .ok taskCanceled)
      ∧ (Store.delete_task s1 taskWorking.id).1 = true
      ∧ Store.task_exists (Store.delete_task s1 taskWorking.id).2 taskWorking.id = false
      ∧ Store.get_task (Store.delete_task s1 taskWorking.id).2 taskWorking.id
          = .error (.taskNotFound taskWorking.id)
      ∧ Store.delete_task [] "zz" = (false, []) :=
  c7_store_roundtrip [] taskWorking taskCanceled "zz" rfl rfl rfl

/-- Claim C8: `resubscribe_task` on a stored task emits exactly one
event carrying the task's current status, final iff the state is
COMPLETED, FAILED or CANCELED, and leaves the store unchanged. -/
theorem c8_resubscribe_single_event (store : Store) (tid : String) (t : Task)
    (hfound : Store.lookupTask store tid = some t) :
    TaskManager.resubscribe_task store tid
        = ([{ id := tid, status := t.status, final := isTerminal t.status.state }],
           .ok (), store)
    ∧ (isTerminal t.status.state = true ↔
        (t.status.state = TaskState.completed ∨ t.status.state = TaskState.failed
          ∨ t.status.state = TaskState.canceled)) := by
  constructor
  · simp [TaskManager.resubscribe_task, Store.get_task, hfound]
  · exact isTerminal_iff _

/-- Claim C8, witness: resubscribing to the stored COMPLETED task. -/
theorem c8_resubscribe_single_event_witness :
    TaskManager.resubscribe_task storeTwoHist "t2"
        = ([{ id := "t2", status := taskTwoHist.status,
              final := isTerminal taskTwoHist.status.state }],
           .ok (), storeTwoHist)
    ∧ (isTerminal taskTwoHist.status.state = true ↔
        (taskTwoHist.status.state = TaskState.completed
          ∨ taskTwoHist.status.state = TaskState.failed
          ∨ taskTwoHist.status.state = TaskState.canceled)) :=
  c8_resubscribe_single_event storeTwoHist "t2" taskTwoHist (by decide)

/-- Claim C9: with no message handler configured, `create_task` and
`send_task_message` return normally, leave the task persisted in
WORKING with only the inbound message appended to history, make no
terminal transition (see the traces), and only `process_message` fails
for a missing handler. -/
theorem c9_no_handler_leaves_working (store store2 : Store) (tid tid2 : String)
    (clock : Nat) (params : TaskSendParams) (t : Task) (m : Message)
    (hfresh : Store.lookupTask store tid = none)
    (hfound : Store.lookupTask store2 tid2 = some t) (hid : t.id = tid2) :
    (∃ t1, (TaskManager.create_task none store tid clock params).result = .ok t1
       ∧ t1.status.state = TaskState.working
       ∧ t1.history = some [params.message]
       ∧ Store.lookupTask (TaskManager.create_task none store tid clock params).store tid
           = some t1
       ∧ (TaskManager.create_task none store tid clock params).trace
           = [.stored .submitted, .stored .working])
  ∧ (∃ t2, (TaskManager.send_task_message none store2 tid2 clock params).result = .ok t2
       ∧ t2.status.state = TaskState.working
       ∧ t2.history = some ((if historyTruthy t.history then t.history.getD [] else [])
             ++ [params.message])
       ∧ Store.lookupTask
           (TaskManager.send_task_message none store2 tid2 clock params).store tid2 = some t2
       ∧ (TaskManager.send_task_message none store2 tid2 clock params).trace
           = [.stored .working])
  ∧ TaskManager.process_message none m
      = .error (.internalError "No message handler registered") := by
  subst hid
  refine ⟨?_, ?_, rfl⟩
  · simp [TaskManager.create_task, Store.create_task, Store.update_task, hfresh,
      Store.lookupTask_append_single, Store.lookupTask_setTask]
  · simp [TaskManager.send_task_message, Store.get_task, Store.update_task, hfound,
      Store.lookupTask_setTask]

/-- Claim C9, witness: the no-handler paths at a fresh id and at the
stored WORKING task. -/
theorem c9_no_handler_leaves_working_witness :
    (∃ t1, (TaskManager.create_task none [] "x" 0 sendHi).result = .ok t1
       ∧ t1.status.state = TaskState.working
       ∧ t1.history = some [sendHi.message]
       ∧ Store.lookupTask (TaskManager.create_task none [] "x" 0 sendHi).store "x" = some t1
       ∧ (TaskManager.create_task none [] "x" 0 sendHi).trace
           = [.stored .submitted, .stored .working])
  ∧ (∃ t2, (TaskManager.send_task_message none storeWorking "t1" 0 sendHi).result = .ok t2
       ∧ t2.status.state = TaskState.working
       ∧ t2.history = some ((if historyTruthy taskWorking.history
             then taskWorking.history.getD [] else []) ++ [sendHi.message])
       ∧ Store.lookupTask (TaskManager.send_task_message none storeWorking "t1" 0 sendHi).store
           "t1" = some t2
       ∧ (TaskManager.send_task_message none storeWorking "t1" 0 sendHi).trace
           = [.stored .working])
  ∧ TaskManager.process_message none msgHi
      = .error (.internalError "No message handler registered") :=
  c9_no_handler_leaves_working [] storeWorking "x" "t1" 0 sendHi taskWorking msgHi rfl
    (by decide) rfl

/-- Claim C10: for a stored task with non-empty history,
`get_task` with `history_length = 0` returns the full history (the
Python slice `history[-0:]` is the whole list), while `history_length =
k` with `k >= 1` returns exactly the last `min k n` entries. -/
theorem c10_history_length_zero_is_full (store : Store) (tid : String) (t : Task)
    (hist : List Message) (k : Nat)
    (hfound : Store.lookupTask store tid = some t)
    (hh : t.history = some hist) (hne : hist ≠ []) (hk : 1 ≤ k) :
    (TaskManager.get_task store { id := tid, history_length := some 0 }).1 = .ok t
    ∧ (∃ t1, (TaskManager.get_task store { id := tid, history_length := some (k : Int) }).1
          = .ok t1
        ∧ t1.history = some (hist.drop (hist.length - k))
        ∧ (hist.drop (hist.length - k)).length = min k hist.length) := by
  have hie : hist.isEmpty = false := by
    simp [List.isEmpty_iff, hne]
  have hkpos : (0 : Int) < (k : Int) := by exact_mod_cast hk
  constructor
  · have hz : pySliceLast hist (0 : Int) = hist := by simp [pySliceLast]
    simp [TaskManager.get_task, Store.get_task, hfound, hh, historyTruthy, hie, hz,
      Task.withHistory_self t hist hh]
  · refine ⟨{ t with history := some (hist.drop (hist.length - k)) }, ?_, rfl, ?_⟩
    · have hslice : pySliceLast hist ((k : Nat) : Int) = hist.drop (hist.length - k) := by
        simp [pySliceLast, hkpos]
      simp [TaskManager.get_task, Store.get_task, hfound, hh, historyTruthy, hie, hslice]
    · simp [List.length_drop]
      omega

/-- Claim C10, witness: the stored two-entry history with limits 0 and 1. -/
theorem c10_history_length_zero_is_full_witness :
    (TaskManager.get_task storeTwoHist { id := "t2", history_length := some 0 }).1
        = .ok taskTwoHist
    ∧ (∃ t1, (TaskManager.get_task storeTwoHist
            { id := "t2", history_length := some ((1 : Nat) : Int) }).1 = .ok t1
        ∧ t1.history = some ([msgA, msgB].drop ([msgA, msgB].length - 1))
        ∧ ([msgA, msgB].drop ([msgA, msgB].length - 1)).length
            = min 1 [msgA, msgB].length) :=
  c10_history_length_zero_is_full storeTwoHist "t2" taskTwoHist [msgA, msgB] 1
    (by decide) rfl (by decide) (by decide)

end A2A

